import Mathlib

/-!
# SatStatsHelper: probe attachment and the generic collector connector

A shallow embedding of the template methods of `src/stats/satellite-stats-helper.h`
(`InstallProbe` and the four overloads of `ConnectCollectorToCollector`), and of the
configuration life cycle of `SatStatsHelper`.

The ns-3 library calls those methods make (`TraceConnectWithoutContext`, `GetObject<C>`,
`MakeCallback`, `ObjectFactory::Create`, `TypeId` lookups, `NS_ASSERT`) are not part of
the repository; each is modelled below by the behaviour ns-3 documents for it, over an
explicit `World` that holds the callbacks connected to trace sources.
-/

namespace SatStats

/-! ## ns-3 interface -/

/-- Result of running a piece of the program: `fatal` is the abort of a failed
`NS_ASSERT` / `NS_ASSERT_MSG`, `undefined` is C++ undefined behaviour (dereferencing
`end ()` of a `std::map`, using an invalid `TypeId`), `ret a` is a normal return. -/
inductive Outcome (α : Type) where
  | fatal : Outcome α
  | undefined : Outcome α
  | ret : α → Outcome α
deriving DecidableEq

/-- An ns-3 `TypeId` record: the registered name, the names `LookupTraceSourceByName`
finds, and the classes an instance can be obtained as through `GetObject<C> ()`. -/
structure TypeId where
  name : String
  traceSources : List String
  classes : List String
deriving DecidableEq

/-- An instance of `ns3::Object` (a `DataCollectionObject`, a `Probe`, or a traced
entity) behind a `Ptr`: its address, its `Name` attribute, the trace source names of its
instance `TypeId`, and the classes `GetObject<C> ()` finds on it. -/
structure Object where
  addr : Nat
  name : String
  traceSources : List String
  classes : List String
deriving DecidableEq

/-- The type `Ptr<DataCollectionObject>` points to. -/
abbrev DataCollectionObject := Object

/-- The type `Ptr<Probe>` points to. -/
abbrev Probe := Object

/-- The value of `MakeCallback (memPtr, objPtr)`: the member function and the address of
the object it is bound to; `receiver = none` is a callback bound to a null pointer
(`MakeCallback` does not check its object argument). -/
structure Callback where
  sink : String
  receiver : Option Nat
deriving DecidableEq

/-- One callback held by the trace source `traceSource` of the object at `emitter`. -/
structure Connection where
  emitter : Nat
  traceSource : String
  callback : Callback
deriving DecidableEq

/-- The mutable state the helper acts on. `connections` are the callbacks held by trace
sources, in the order they were connected. `attempts` is a history of every call of
`TraceConnectWithoutContext`, successful or not; the program cannot read it, it is kept
to state which binds a call has attempted. `nextAddr` is the next address the object
factory hands out. -/
structure World where
  connections : List Connection
  attempts : List Connection
  nextAddr : Nat
deriving DecidableEq

/-- `NS_ASSERT (cond)` / `NS_ASSERT_MSG (cond, msg)` followed by `k`. The macros abort
when the condition is false in a build with `NS3_ASSERT_ENABLE` (debug, the default
profile) and expand to nothing in an optimized build. -/
def NS_ASSERT {α : Type} (assertEnabled : Bool) (cond : Bool) (k : Outcome α) : Outcome α :=
  if assertEnabled && !cond then Outcome.fatal else k

/-- `obj->GetObject<C> ()`: the pointer to `obj` seen as a `C`, or null (`none`). -/
def GetObject (obj : Object) (C : String) : Option Nat :=
  if C ∈ obj.classes then some obj.addr else none

/-- `MakeCallback (memPtr, objPtr)`. -/
def MakeCallback (memPtr : String) (objPtr : Option Nat) : Callback :=
  { sink := memPtr, receiver := objPtr }

/-- `obj->TraceConnectWithoutContext (name, cb)`: looks `name` up among the trace sources
of the instance; returns false, connecting nothing, when there is none, and otherwise
appends the callback to that trace source and returns true. The payload signature of the
callback is fixed by the template arguments and is taken to fit the trace source. -/
def TraceConnectWithoutContext (obj : Object) (name : String) (cb : Callback) (w : World) :
    Bool × World :=
  let c : Connection := { emitter := obj.addr, traceSource := name, callback := cb }
  if name ∈ obj.traceSources then
    (true, { w with connections := w.connections ++ [c], attempts := w.attempts ++ [c] })
  else
    (false, { w with attempts := w.attempts ++ [c] })

/-- `TypeId::LookupByName (name)` over the table of registered types. -/
def TypeId.LookupByName (tids : List TypeId) (name : String) : Option TypeId :=
  tids.find? (fun t => t.name == name)

/-- The test `tid.LookupTraceSourceByName (name) != 0`. -/
def TypeId.LookupTraceSourceByName (tid : TypeId) (name : String) : Bool :=
  decide (name ∈ tid.traceSources)

/-- The object factory of `InstallProbe`: `factory.SetTypeId (probeTid)`,
`factory.Set ("Name", StringValue (probeName))`,
`factory.Create ()->GetObject<Probe> (probeTid)`. The type is taken to be a probe type
(it has the attribute `Name` and its instances are `Probe`s); the new instance has the
trace sources of its type. -/
def ObjectFactory.Create (probeTid : TypeId) (probeName : String) (w : World) :
    Probe × World :=
  ({ addr := w.nextAddr, name := probeName, traceSources := probeTid.traceSources,
     classes := probeTid.classes },
   { w with nextAddr := w.nextAddr + 1 })

/-- `probe->ConnectByObject (traceSource, obj)` as the ns-3 probes implement it:
`obj->TraceConnectWithoutContext (traceSource, MakeCallback (&P::TraceSink, this))`. -/
def Probe.ConnectByObject (probe : Probe) (traceSource : String) (obj : Object)
    (w : World) : Bool × World :=
  TraceConnectWithoutContext obj traceSource (MakeCallback "TraceSink" (some probe.addr)) w

/-! ## `SatStatsHelper::CollectorMap_t` -/

/-- `std::map<uint32_t, Ptr<DataCollectionObject> >`: the entries in iteration order,
which is strictly ascending in the key. -/
structure CollectorMap_t where
  entries : List (Nat × DataCollectionObject)
  ascending : entries.Pairwise (fun a b => a.1 < b.1)

/-- `collectorMap.size ()`. -/
def CollectorMap_t.size (m : CollectorMap_t) : Nat := m.entries.length

/-- `collectorMap.find (identifier)`: `none` stands for `end ()`, `some c` for an
iterator whose `second` is `c`. -/
def CollectorMap_t.find (m : CollectorMap_t) (identifier : Nat) :
    Option DataCollectionObject :=
  (m.entries.find? (fun e => e.1 == identifier)).map Prod.snd

/-- The set of keys of a registry. -/
def CollectorMap_t.keySet (m : CollectorMap_t) : Finset Nat :=
  (m.entries.map Prod.fst).toFinset

/-! ## Template methods of `satellite-stats-helper.h` -/

/-- `ConnectCollectorToCollector`, single→single (lines 474-485). `C` is the receiver
class of the template, `traceSink` the member function pointer. -/
def ConnectCollectorToCollector_SingleToSingle (sourceCollector : DataCollectionObject)
    (traceSourceName : String) (targetCollector : DataCollectionObject)
    (C traceSink : String) (w : World) : Outcome (Bool × World) :=
  let target := GetObject targetCollector C
  Outcome.ret
    (TraceConnectWithoutContext sourceCollector traceSourceName
      (MakeCallback traceSink target) w)

/-- The `for` loop of the map→map overload (lines 413-426) over the remaining source
entries. -/
def mapToMapLoop (assertEnabled : Bool) (traceSourceName : String)
    (targetCollectorMap : CollectorMap_t) (C traceSink : String) :
    List (Nat × DataCollectionObject) → World → Outcome (Bool × World)
  | [], w => Outcome.ret (true, w)
  | it1 :: rest, w =>
    let identifier := it1.1
    let it2 := targetCollectorMap.find identifier
    NS_ASSERT assertEnabled it2.isSome
      (match it2 with
       | none => Outcome.undefined
       | some it2_second =>
         match ConnectCollectorToCollector_SingleToSingle it1.2 traceSourceName
                 it2_second C traceSink w with
         | Outcome.ret (true, w1) =>
           mapToMapLoop assertEnabled traceSourceName targetCollectorMap C traceSink rest w1
         | Outcome.ret (false, w1) => Outcome.ret (false, w1)
         | Outcome.fatal => Outcome.fatal
         | Outcome.undefined => Outcome.undefined)

/-- `ConnectCollectorToCollector`, map→map (lines 404-429). -/
def ConnectCollectorToCollector_MapToMap (assertEnabled : Bool)
    (sourceCollectorMap : CollectorMap_t) (traceSourceName : String)
    (targetCollectorMap : CollectorMap_t) (C traceSink : String) (w : World) :
    Outcome (Bool × World) :=
  NS_ASSERT assertEnabled (sourceCollectorMap.size == targetCollectorMap.size)
    (mapToMapLoop assertEnabled traceSourceName targetCollectorMap C traceSink
      sourceCollectorMap.entries w)

/-- `InstallProbe` (lines 354-401). The result carries the returned `Ptr<Probe>`
(`none` is the null pointer), the registry passed by reference as the call leaves it,
and the world. -/
def InstallProbe (assertEnabled : Bool) (tids : List TypeId) (object : Object)
    (objectTraceSourceName probeName probeTypeId probeTraceSourceName : String)
    (identifier : Nat) (collectorMap : CollectorMap_t) (C collectorTraceSink : String)
    (w : World) : Outcome (Option Probe × CollectorMap_t × World) :=
  match TypeId.LookupByName tids probeTypeId with
  | none => if assertEnabled then Outcome.fatal else Outcome.undefined
  | some probeTid =>
    NS_ASSERT assertEnabled (probeTid.LookupTraceSourceByName probeTraceSourceName)
      (let created := ObjectFactory.Create probeTid probeName w
       let probe := created.1
       match probe.ConnectByObject objectTraceSourceName object created.2 with
       | (true, w2) =>
         let it := collectorMap.find identifier
         NS_ASSERT assertEnabled it.isSome
           (match it with
            | none => Outcome.undefined
            | some it_second =>
              let collector := GetObject it_second C
              NS_ASSERT assertEnabled collector.isSome
                (match TraceConnectWithoutContext probe probeTraceSourceName
                         (MakeCallback collectorTraceSink collector) w2 with
                 | (true, w3) => Outcome.ret (some probe, collectorMap, w3)
                 | (false, w3) => Outcome.ret (none, collectorMap, w3)))
       | (false, w2) => Outcome.ret (none, collectorMap, w2))

/-! ## Vocabulary of the statements -/

/-- The connection a single→single bind of the pair `(source, target)` makes (or tries to
make): the callback `traceSink` on `target->GetObject<C> ()`, held by the trace source
`traceSourceName` of `source`. -/
def bindOf (traceSourceName C traceSink : String)
    (p : DataCollectionObject × DataCollectionObject) : Connection :=
  { emitter := p.1.addr, traceSource := traceSourceName,
    callback := MakeCallback traceSink (GetObject p.2 C) }

/-- The single→single bind of the pair `(source, target)` succeeds: called in any world,
it returns true. -/
def BindSucceeds (traceSourceName C traceSink : String)
    (p : DataCollectionObject × DataCollectionObject) : Prop :=
  ∀ w, ∃ w1, ConnectCollectorToCollector_SingleToSingle p.1 traceSourceName p.2 C
    traceSink w = Outcome.ret (true, w1)

/-- The single→single bind of the pair `(source, target)` fails: called in any world, it
returns false. -/
def BindFails (traceSourceName C traceSink : String)
    (p : DataCollectionObject × DataCollectionObject) : Prop :=
  ∀ w, ∃ w1, ConnectCollectorToCollector_SingleToSingle p.1 traceSourceName p.2 C
    traceSink w = Outcome.ret (false, w1)

/-- The pairs a map→map call covers among the source entries `es`: each source collector
with the target collector stored under the same key. -/
def sameKeyedPairs (es : List (Nat × DataCollectionObject))
    (targetCollectorMap : CollectorMap_t) :
    List (DataCollectionObject × DataCollectionObject) :=
  es.filterMap (fun e => (targetCollectorMap.find e.1).map (fun t => (e.2, t)))

/-- Sequential binding of a list of pairs, stopping at the first failure: the common
shape of the three loops, used to reason about them at once. -/
def connectPairs (traceSourceName C traceSink : String) :
    List (DataCollectionObject × DataCollectionObject) → World → Bool × World
  | [], w => (true, w)
  | p :: ps, w =>
    let c := bindOf traceSourceName C traceSink p
    if traceSourceName ∈ p.1.traceSources then
      connectPairs traceSourceName C traceSink ps
        { w with connections := w.connections ++ [c], attempts := w.attempts ++ [c] }
    else
      (false, { w with attempts := w.attempts ++ [c] })

/-- The attachment step of `InstallProbe` (lines 370-376) for a probe type that has been
looked up: the new probe is created and `probe->ConnectByObject (objectTraceSourceName,
object)` is called; the value is what that call returns. -/
def attaches (probeTid : TypeId) (probeName objectTraceSourceName : String)
    (object : Object) (w : World) : Bool :=
  (Probe.ConnectByObject (ObjectFactory.Create probeTid probeName w).1
    objectTraceSourceName object (ObjectFactory.Create probeTid probeName w).2).1

/-! ## Configuration life cycle of `SatStatsHelper`

The header declares `Install`, the setters and the getters (lines 110-152) and the
fields they act on (lines 340-345); their bodies are not in the header. -/

/-- `SatStatsHelper::IdentifierType_t` (lines 56-63). -/
inductive IdentifierType_t where
  | IDENTIFIER_GLOBAL
  | IDENTIFIER_GW
  | IDENTIFIER_BEAM
  | IDENTIFIER_UT
  | IDENTIFIER_UT_USER
deriving DecidableEq

/-- `SatStatsHelper::OutputType_t` (lines 75-88). -/
inductive OutputType_t where
  | OUTPUT_NONE
  | OUTPUT_SCALAR_FILE
  | OUTPUT_SCATTER_FILE
  | OUTPUT_HISTOGRAM_FILE
  | OUTPUT_PDF_FILE
  | OUTPUT_CDF_FILE
  | OUTPUT_SCALAR_PLOT
  | OUTPUT_SCATTER_PLOT
  | OUTPUT_HISTOGRAM_PLOT
  | OUTPUT_PDF_PLOT
  | OUTPUT_CDF_PLOT
deriving DecidableEq

/-- The fields of `SatStatsHelper` (lines 340-345); `m_satHelper` is the address of the
`SatHelper`. `m_collectors` is the collector registry, which the spec counts among the
state of the helper (in the source the registries belong to the subclasses). -/
structure SatStatsHelper where
  m_name : String
  m_identifierType : IdentifierType_t
  m_outputType : OutputType_t
  m_isInstalled : Bool
  m_satHelper : Nat
  m_aggregator : Option DataCollectionObject
  m_collectors : CollectorMap_t

/-- Modelled from the spec: the body of `SatStatsHelper::GetIdentifierType`, declared at
line 131 and defined outside the header; it reads the active identifier level. -/
def SatStatsHelper.GetIdentifierType (s : SatStatsHelper) : IdentifierType_t :=
  s.m_identifierType

/-- Modelled from the spec: the body of `SatStatsHelper::GetOutputType`, declared at
line 142 and defined outside the header; it reads the active output mode. -/
def SatStatsHelper.GetOutputType (s : SatStatsHelper) : OutputType_t :=
  s.m_outputType

/-- Modelled from the spec: the body of `SatStatsHelper::GetAggregator`, declared at
line 152 and defined outside the header; it reads the aggregator handle. -/
def SatStatsHelper.GetAggregator (s : SatStatsHelper) : Option DataCollectionObject :=
  s.m_aggregator

/-- Modelled from the spec: the body of `SatStatsHelper::SetIdentifierType`, declared at
line 126 and defined outside the header. The setter has effect only before
installation; after it, the call is a no-op. -/
def SatStatsHelper.SetIdentifierType (s : SatStatsHelper)
    (identifierType : IdentifierType_t) : SatStatsHelper :=
  if s.m_isInstalled then s else { s with m_identifierType := identifierType }

/-- Modelled from the spec: the body of `SatStatsHelper::SetOutputType`, declared at
line 137 and defined outside the header. The setter has effect only before
installation; after it, the call is a no-op. -/
def SatStatsHelper.SetOutputType (s : SatStatsHelper) (outputType : OutputType_t) :
    SatStatsHelper :=
  if s.m_isInstalled then s else { s with m_outputType := outputType }

/-- Modelled from the spec: the body of `SatStatsHelper::Install`, declared at line 110
and defined outside the header. A second call is a no-op; the first one delegates to the
aggregator creation, then to the hook `DoInstall` of the subclass, and leaves the helper
installed. The two delegates are parameters. -/
def SatStatsHelper.Install (CreateAggregator DoInstall : SatStatsHelper → SatStatsHelper)
    (s : SatStatsHelper) : SatStatsHelper :=
  if s.m_isInstalled then s
  else { DoInstall (CreateAggregator s) with m_isInstalled := true }

/-! ## Sample objects, registries and calls -/

/-- A world with nothing connected yet. -/
def sampleWorld : World := { connections := [], attempts := [], nextAddr := 100 }

/-- A collector with the trace source `Output`, obtainable as a `Sink`. -/
def collectorWithOutput : DataCollectionObject :=
  { addr := 1, name := "c1", traceSources := ["Output"], classes := ["Sink"] }

/-- A collector without any trace source, obtainable as a `Sink`. -/
def collectorWithoutOutput : DataCollectionObject :=
  { addr := 2, name := "c2", traceSources := [], classes := ["Sink"] }

/-- A collector with the trace source `Output` that is not a `Sink`. -/
def collectorNotSink : DataCollectionObject :=
  { addr := 3, name := "c3", traceSources := ["Output"], classes := [] }

/-- A second collector with the trace source `Output`, obtainable as a `Sink`. -/
def collectorWithOutput2 : DataCollectionObject :=
  { addr := 4, name := "c4", traceSources := ["Output"], classes := ["Sink"] }

/-- A traced entity with the trace source `Rx`. -/
def sampleEntity : Object :=
  { addr := 10, name := "app", traceSources := ["Rx"], classes := [] }

/-- The registered probe types: one probe type with the trace source `Output`. -/
def sampleTypeIds : List TypeId :=
  [{ name := "ns3::ApplicationPacketProbe", traceSources := ["Output"],
     classes := ["Probe"] }]

/-- Registry `{0 ↦ collectorWithoutOutput}`. -/
def registryMute : CollectorMap_t := ⟨[(0, collectorWithoutOutput)], by simp⟩

/-- Registry `{0 ↦ collectorWithOutput}`. -/
def registryOut : CollectorMap_t := ⟨[(0, collectorWithOutput)], by simp⟩

/-- Registry `{1 ↦ collectorWithoutOutput, 2 ↦ collectorWithOutput}`. -/
def registrySource : CollectorMap_t :=
  ⟨[(1, collectorWithoutOutput), (2, collectorWithOutput)], by simp⟩

/-- Registry `{1 ↦ collectorWithOutput, 3 ↦ collectorWithOutput2}`: same size as
`registrySource`, other keys. -/
def registryOtherKeys : CollectorMap_t :=
  ⟨[(1, collectorWithOutput), (3, collectorWithOutput2)], by simp⟩

/-- Registry `{1 ↦ collectorWithOutput, 2 ↦ collectorWithoutOutput, 3 ↦ collectorWithOutput2}`. -/
def registryThree : CollectorMap_t :=
  ⟨[(1, collectorWithOutput), (2, collectorWithoutOutput), (3, collectorWithOutput2)],
    by simp⟩

/-- Registry `{1 ↦ collectorWithOutput2, 2 ↦ collectorWithOutput, 3 ↦ collectorNotSink}`. -/
def registryThreeTargets : CollectorMap_t :=
  ⟨[(1, collectorWithOutput2), (2, collectorWithOutput), (3, collectorNotSink)],
    by simp⟩

/-- The empty registry. -/
def registryEmpty : CollectorMap_t := ⟨[], List.Pairwise.nil⟩

/-- A helper that has not been installed. -/
def sampleHelper : SatStatsHelper :=
  { m_name := "stat", m_identifierType := IdentifierType_t.IDENTIFIER_GLOBAL,
    m_outputType := OutputType_t.OUTPUT_SCALAR_FILE, m_isInstalled := false,
    m_satHelper := 0, m_aggregator := none, m_collectors := registryOut }

/-- The world a map→map call leaves when, from `sampleWorld`, the bind of
`collectorWithOutput` to `collectorWithOutput2` succeeded and the bind of
`collectorWithoutOutput` to `collectorWithOutput` was attempted and failed. -/
def partlyWiredWorld : World :=
  { connections := [{ emitter := 1, traceSource := "Output",
                      callback := { sink := "TraceSinkDouble", receiver := some 4 } }],
    attempts := [{ emitter := 1, traceSource := "Output",
                   callback := { sink := "TraceSinkDouble", receiver := some 4 } },
                 { emitter := 2, traceSource := "Output",
                   callback := { sink := "TraceSinkDouble", receiver := some 1 } }],
    nextAddr := 100 }

/-! ## Lemmas on the single→single bind and the loops -/

theorem single_eq (s : DataCollectionObject) (n : String) (t : DataCollectionObject)
    (C k : String) (w : World) :
    ConnectCollectorToCollector_SingleToSingle s n t C k w =
      Outcome.ret (if n ∈ s.traceSources then
          (true, { w with connections := w.connections ++ [bindOf n C k (s, t)],
                          attempts := w.attempts ++ [bindOf n C k (s, t)] })
        else (false, { w with attempts := w.attempts ++ [bindOf n C k (s, t)] })) := by
  simp only [ConnectCollectorToCollector_SingleToSingle, TraceConnectWithoutContext, bindOf]

theorem bindSucceeds_iff (n C k : String) (p : DataCollectionObject × DataCollectionObject) :
    BindSucceeds n C k p ↔ n ∈ p.1.traceSources := by
  constructor
  · intro h
    obtain ⟨w1, hw⟩ := h ⟨[], [], 0⟩
    rw [single_eq] at hw
    by_contra hn
    simp [hn] at hw
  · intro h w
    rw [single_eq]
    simp [h]

theorem bindFails_iff (n C k : String) (p : DataCollectionObject × DataCollectionObject) :
    BindFails n C k p ↔ n ∉ p.1.traceSources := by
  constructor
  · intro h hn
    obtain ⟨w1, hw⟩ := h ⟨[], [], 0⟩
    rw [single_eq] at hw
    simp [hn] at hw
  · intro h w
    rw [single_eq]
    simp [h]

theorem mapToMapLoop_eq (ae : Bool) (n : String) (tgt : CollectorMap_t) (C k : String)
    (es : List (Nat × DataCollectionObject)) (w : World)
    (hkeys : ∀ e ∈ es, (tgt.find e.1).isSome = true) :
    mapToMapLoop ae n tgt C k es w =
      Outcome.ret (connectPairs n C k (sameKeyedPairs es tgt) w) := by
  induction es generalizing w with
  | nil => rfl
  | cons e es ih =>
    have he := hkeys e (List.mem_cons_self _ _)
    obtain ⟨t, ht⟩ := Option.isSome_iff_exists.mp he
    have hrest : ∀ x ∈ es, (tgt.find x.1).isSome = true :=
      fun x hx => hkeys x (List.mem_cons_of_mem _ hx)
    simp only [mapToMapLoop, NS_ASSERT, ht, Option.isSome_some, Bool.not_true,
      Bool.and_false, single_eq, sameKeyedPairs, List.filterMap_cons, Option.map_some',
      connectPairs]
    by_cases h : n ∈ e.2.traceSources
    · simp only [h, if_true]
      exact ih _ hrest
    · simp [h]


theorem connectPairs_fail (n C k : String)
    (pre : List (DataCollectionObject × DataCollectionObject))
    (p : DataCollectionObject × DataCollectionObject)
    (post : List (DataCollectionObject × DataCollectionObject)) (w : World)
    (hpre : ∀ q ∈ pre, n ∈ q.1.traceSources) (hp : n ∉ p.1.traceSources) :
    connectPairs n C k (pre ++ p :: post) w =
      (false, { connections := w.connections ++ pre.map (bindOf n C k),
                attempts := w.attempts ++ (pre ++ [p]).map (bindOf n C k),
                nextAddr := w.nextAddr }) := by
  induction pre generalizing w with
  | nil => simp [connectPairs, hp]
  | cons q pre ih =>
    have hq := hpre q (List.mem_cons_self _ _)
    have hrest : ∀ x ∈ pre, n ∈ x.1.traceSources :=
      fun x hx => hpre x (List.mem_cons_of_mem _ hx)
    have hstep : connectPairs n C k (q :: (pre ++ p :: post)) w =
        connectPairs n C k (pre ++ p :: post)
          { w with connections := w.connections ++ [bindOf n C k q],
                   attempts := w.attempts ++ [bindOf n C k q] } := by
      simp only [connectPairs, hq, if_true]
    rw [List.cons_append, hstep, ih _ hrest]
    simp

theorem connectPairs_all (n C k : String)
    (ps : List (DataCollectionObject × DataCollectionObject)) (w : World)
    (hps : ∀ q ∈ ps, n ∈ q.1.traceSources) :
    connectPairs n C k ps w =
      (true, { connections := w.connections ++ ps.map (bindOf n C k),
               attempts := w.attempts ++ ps.map (bindOf n C k),
               nextAddr := w.nextAddr }) := by
  induction ps generalizing w with
  | nil => simp [connectPairs]
  | cons q ps ih =>
    have hq := hps q (List.mem_cons_self _ _)
    have hrest : ∀ x ∈ ps, n ∈ x.1.traceSources :=
      fun x hx => hps x (List.mem_cons_of_mem _ hx)
    simp only [connectPairs, hq, if_true]
    rw [ih _ hrest]
    simp

theorem exists_first_not {α : Type} (P : α → Prop) (l : List α)
    (h : ¬ ∀ x ∈ l, P x) :
    ∃ pre a post, l = pre ++ a :: post ∧ (∀ x ∈ pre, P x) ∧ ¬ P a := by
  induction l with
  | nil => exact absurd (fun x hx => absurd hx (List.not_mem_nil x)) h
  | cons b l ih =>
    by_cases hb : P b
    · have hrest : ¬ ∀ x ∈ l, P x := by
        intro hall
        apply h
        intro x hx
        rcases List.mem_cons.mp hx with rfl | hx
        · exact hb
        · exact hall x hx
      obtain ⟨pre, a, post, hsplit, hpre, ha⟩ := ih hrest
      refine ⟨b :: pre, a, post, by simp [hsplit], ?_, ha⟩
      intro x hx
      rcases List.mem_cons.mp hx with rfl | hx
      · exact hb
      · exact hpre x hx
    · exact ⟨[], b, l, rfl, fun x hx => absurd hx (List.not_mem_nil x), hb⟩

theorem exists_first_failure (n : String)
    (ps : List (DataCollectionObject × DataCollectionObject))
    (h : ¬ ∀ q ∈ ps, n ∈ q.1.traceSources) :
    ∃ pre p post, ps = pre ++ p :: post ∧ (∀ q ∈ pre, n ∈ q.1.traceSources) ∧
      n ∉ p.1.traceSources :=
  exists_first_not (fun q => n ∈ q.1.traceSources) ps h

theorem connectPairs_true_iff (n C k : String)
    (ps : List (DataCollectionObject × DataCollectionObject)) (w : World) :
    (connectPairs n C k ps w).1 = true ↔ ∀ q ∈ ps, n ∈ q.1.traceSources := by
  constructor
  · intro h
    by_contra hall
    obtain ⟨pre, p, post, hsplit, hpre, hp⟩ := exists_first_failure n ps hall
    rw [hsplit, connectPairs_fail n C k pre p post w hpre hp] at h
    simp at h
  · intro hall
    rw [connectPairs_all n C k ps w hall]

theorem find_isSome_iff (m : CollectorMap_t) (key : Nat) :
    (m.find key).isSome = true ↔ key ∈ m.keySet := by
  simp only [CollectorMap_t.find, CollectorMap_t.keySet, Option.isSome_map',
    List.find?_isSome, List.mem_toFinset, List.mem_map, beq_iff_eq]

theorem find_eq_none_iff (m : CollectorMap_t) (key : Nat) :
    m.find key = none ↔ key ∉ m.keySet := by
  rw [← find_isSome_iff]
  cases m.find key <;> simp

theorem keys_nodup (m : CollectorMap_t) : (m.entries.map Prod.fst).Nodup := by
  have h : (m.entries.map Prod.fst).Pairwise (fun a b => a < b) :=
    List.pairwise_map.mpr m.ascending
  exact h.imp (fun hab => Nat.ne_of_lt hab)

theorem keySet_card (m : CollectorMap_t) : m.keySet.card = m.size := by
  simp only [CollectorMap_t.keySet, CollectorMap_t.size]
  rw [List.toFinset_card_of_nodup (keys_nodup m), List.length_map]

theorem keySet_eq_iff (src tgt : CollectorMap_t) :
    src.keySet = tgt.keySet ↔
      src.size = tgt.size ∧ ∀ e ∈ src.entries, (tgt.find e.1).isSome = true := by
  constructor
  · intro h
    refine ⟨by rw [← keySet_card, ← keySet_card, h], ?_⟩
    intro e he
    rw [find_isSome_iff, ← h]
    simp only [CollectorMap_t.keySet, List.mem_toFinset, List.mem_map]
    exact ⟨e, he, rfl⟩
  · rintro ⟨hsize, hkeys⟩
    apply Finset.eq_of_subset_of_card_le
    · intro key hkey
      simp only [CollectorMap_t.keySet, List.mem_toFinset, List.mem_map] at hkey
      obtain ⟨e, he, rfl⟩ := hkey
      exact (find_isSome_iff tgt e.1).mp (hkeys e he)
    · rw [keySet_card, keySet_card, hsize]

theorem mapToMapLoop_missing (ae : Bool) (n : String) (tgt : CollectorMap_t) (C k : String)
    (pre : List (Nat × DataCollectionObject)) (e : Nat × DataCollectionObject)
    (post : List (Nat × DataCollectionObject)) (w : World)
    (hpre : ∀ x ∈ pre, (tgt.find x.1).isSome = true) (he : tgt.find e.1 = none) :
    mapToMapLoop ae n tgt C k (pre ++ e :: post) w =
      if (connectPairs n C k (sameKeyedPairs pre tgt) w).1 = true then
        (if ae = true then Outcome.fatal else Outcome.undefined)
      else Outcome.ret (connectPairs n C k (sameKeyedPairs pre tgt) w) := by
  induction pre generalizing w with
  | nil =>
    cases ae <;> simp [mapToMapLoop, NS_ASSERT, he, sameKeyedPairs, connectPairs]
  | cons x pre ih =>
    have hx := hpre x (List.mem_cons_self _ _)
    obtain ⟨t, ht⟩ := Option.isSome_iff_exists.mp hx
    have hrest : ∀ y ∈ pre, (tgt.find y.1).isSome = true :=
      fun y hy => hpre y (List.mem_cons_of_mem _ hy)
    have hpairs : sameKeyedPairs (x :: pre) tgt = (x.2, t) :: sameKeyedPairs pre tgt := by
      simp [sameKeyedPairs, ht]
    rw [hpairs]
    by_cases h : n ∈ x.2.traceSources
    · have hstep : mapToMapLoop ae n tgt C k (x :: (pre ++ e :: post)) w =
          mapToMapLoop ae n tgt C k (pre ++ e :: post)
            { w with connections := w.connections ++ [bindOf n C k (x.2, t)],
                     attempts := w.attempts ++ [bindOf n C k (x.2, t)] } := by
        simp [mapToMapLoop, NS_ASSERT, ht, single_eq, h]
      rw [List.cons_append, hstep, ih _ hrest]
      simp only [connectPairs, h, if_true]
    · simp [mapToMapLoop, NS_ASSERT, ht, single_eq, h, connectPairs]

theorem sameKeyedPairs_append (es fs : List (Nat × DataCollectionObject))
    (tgt : CollectorMap_t) :
    sameKeyedPairs (es ++ fs) tgt = sameKeyedPairs es tgt ++ sameKeyedPairs fs tgt := by
  simp [sameKeyedPairs, List.filterMap_append]

theorem sameKeyedPairs_mem (es : List (Nat × DataCollectionObject)) (tgt : CollectorMap_t)
    (p : DataCollectionObject × DataCollectionObject) :
    p ∈ sameKeyedPairs es tgt ↔ ∃ e ∈ es, tgt.find e.1 = some p.2 ∧ e.2 = p.1 := by
  simp only [sameKeyedPairs, List.mem_filterMap, Option.map_eq_some']
  constructor
  · rintro ⟨e, he, t, ht, rfl⟩
    exact ⟨e, he, ht, rfl⟩
  · rintro ⟨e, he, ht, h1⟩
    exact ⟨e, he, p.2, ht, by rw [h1]⟩

theorem mapToMapLoop_false (ae : Bool) (n : String) (tgt : CollectorMap_t) (C k : String)
    (es : List (Nat × DataCollectionObject)) (w w1 : World)
    (h : mapToMapLoop ae n tgt C k es w = Outcome.ret (false, w1)) :
    ∃ pre e t post, es = pre ++ e :: post ∧
      (∀ x ∈ pre, ∃ t1, tgt.find x.1 = some t1 ∧ n ∈ x.2.traceSources) ∧
      tgt.find e.1 = some t ∧ n ∉ e.2.traceSources ∧
      w1.connections = w.connections ++ (sameKeyedPairs pre tgt).map (bindOf n C k) ∧
      w1.attempts = w.attempts ++ (sameKeyedPairs (pre ++ [e]) tgt).map (bindOf n C k) := by
  induction es generalizing w with
  | nil => simp [mapToMapLoop] at h
  | cons e es ih =>
    cases ht : tgt.find e.1 with
    | none =>
      cases ae <;> simp [mapToMapLoop, NS_ASSERT, ht] at h
    | some t =>
      by_cases hn : n ∈ e.2.traceSources
      · have hstep : mapToMapLoop ae n tgt C k (e :: es) w =
            mapToMapLoop ae n tgt C k es
              { w with connections := w.connections ++ [bindOf n C k (e.2, t)],
                       attempts := w.attempts ++ [bindOf n C k (e.2, t)] } := by
          simp [mapToMapLoop, NS_ASSERT, ht, single_eq, hn]
        rw [hstep] at h
        obtain ⟨pre, e1, t1, post, hsplit, hpre, ht1, hn1, hconn, hatt⟩ := ih _ h
        refine ⟨e :: pre, e1, t1, post, by simp [hsplit], ?_, ht1, hn1, ?_, ?_⟩
        · intro x hx
          rcases List.mem_cons.mp hx with rfl | hx
          · exact ⟨t, ht, hn⟩
          · exact hpre x hx
        · rw [hconn]
          simp [sameKeyedPairs, ht]
        · rw [hatt]
          simp [sameKeyedPairs, ht]
      · have hstep : mapToMapLoop ae n tgt C k (e :: es) w =
            Outcome.ret (false, { w with attempts := w.attempts ++ [bindOf n C k (e.2, t)] }) := by
          simp [mapToMapLoop, NS_ASSERT, ht, single_eq, hn]
        rw [hstep] at h
        have hw : w1 = { w with attempts := w.attempts ++ [bindOf n C k (e.2, t)] } := by
          injection h with h
          injection h with _ h
          exact h.symm
        refine ⟨[], e, t, es, rfl, fun x hx => absurd hx (List.not_mem_nil x), ht, hn, ?_, ?_⟩
        · rw [hw]
          simp [sameKeyedPairs]
        · rw [hw]
          simp [sameKeyedPairs, ht]

theorem mapToMapLoop_true (ae : Bool) (n : String) (tgt : CollectorMap_t) (C k : String)
    (es : List (Nat × DataCollectionObject)) (w w1 : World)
    (h : mapToMapLoop ae n tgt C k es w = Outcome.ret (true, w1)) :
    (∀ e ∈ es, (tgt.find e.1).isSome = true) ∧
      ∀ p ∈ sameKeyedPairs es tgt, n ∈ p.1.traceSources := by
  by_cases hkeys : ∀ e ∈ es, (tgt.find e.1).isSome = true
  · refine ⟨hkeys, ?_⟩
    rw [mapToMapLoop_eq ae n tgt C k es w hkeys] at h
    have h1 : (connectPairs n C k (sameKeyedPairs es tgt) w).1 = true := by
      injection h with h
      rw [h]
    exact (connectPairs_true_iff n C k _ w).mp h1
  · exfalso
    obtain ⟨pre, e, post, hsplit, hpre, he⟩ :=
      exists_first_not (fun e => (tgt.find e.1).isSome = true) es hkeys
    have he1 : tgt.find e.1 = none := by
      cases hf : tgt.find e.1 with
      | none => rfl
      | some t => simp [hf] at he
    rw [hsplit, mapToMapLoop_missing ae n tgt C k pre e post w hpre he1] at h
    by_cases hc : (connectPairs n C k (sameKeyedPairs pre tgt) w).1 = true
    · cases ae <;> simp [hc] at h
    · simp only [hc, if_false] at h
      injection h with h
      rw [h] at hc
      exact hc rfl

theorem mapToMap_assert_size (src : CollectorMap_t) (n : String) (tgt : CollectorMap_t)
    (C k : String) (w : World) :
    ConnectCollectorToCollector_MapToMap true src n tgt C k w =
      if src.size = tgt.size then mapToMapLoop true n tgt C k src.entries w
      else Outcome.fatal := by
  by_cases h : src.size = tgt.size
  · simp [ConnectCollectorToCollector_MapToMap, NS_ASSERT, h]
  · simp [ConnectCollectorToCollector_MapToMap, NS_ASSERT, h]

theorem mapToMap_of_keys (ae : Bool) (src : CollectorMap_t) (n : String)
    (tgt : CollectorMap_t) (C k : String) (w : World) (hsize : src.size = tgt.size)
    (hkeys : ∀ e ∈ src.entries, (tgt.find e.1).isSome = true) :
    ConnectCollectorToCollector_MapToMap ae src n tgt C k w =
      Outcome.ret (connectPairs n C k (sameKeyedPairs src.entries tgt) w) := by
  simp only [ConnectCollectorToCollector_MapToMap, NS_ASSERT, hsize, beq_self_eq_true,
    Bool.not_true, Bool.and_false]
  exact mapToMapLoop_eq ae n tgt C k src.entries w hkeys

theorem mapToMap_true_keys (src : CollectorMap_t) (n : String) (tgt : CollectorMap_t)
    (C k : String) (w w1 : World)
    (h : ConnectCollectorToCollector_MapToMap true src n tgt C k w = Outcome.ret (true, w1)) :
    src.keySet = tgt.keySet ∧ ∀ p ∈ sameKeyedPairs src.entries tgt, n ∈ p.1.traceSources := by
  rw [mapToMap_assert_size] at h
  by_cases hsize : src.size = tgt.size
  · simp only [hsize, if_true] at h
    obtain ⟨hkeys, hall⟩ := mapToMapLoop_true true n tgt C k src.entries w w1 h
    exact ⟨(keySet_eq_iff _ _).mpr ⟨hsize, hkeys⟩, hall⟩
  · simp [hsize] at h

theorem attaches_iff (probeTid : TypeId) (probeName otsn : String) (object : Object)
    (w : World) : attaches probeTid probeName otsn object w = true ↔
      otsn ∈ object.traceSources := by
  simp only [attaches, Probe.ConnectByObject, TraceConnectWithoutContext]
  by_cases h : otsn ∈ object.traceSources <;> simp [h]

theorem installProbe_attach_false (ae : Bool) (tids : List TypeId) (object : Object)
    (otsn pname ptid ptsn : String) (identifier : Nat) (collectorMap : CollectorMap_t)
    (C sink : String) (w : World) (probeTid : TypeId)
    (hlookup : TypeId.LookupByName tids ptid = some probeTid)
    (hsrc : probeTid.LookupTraceSourceByName ptsn = true ∨ ae = false)
    (hattach : attaches probeTid pname otsn object w = false) :
    ∃ w1, InstallProbe ae tids object otsn pname ptid ptsn identifier collectorMap C sink w =
        Outcome.ret (none, collectorMap, w1) ∧ w1.connections = w.connections := by
  have hno : otsn ∉ object.traceSources := by
    intro hmem
    rw [(attaches_iff probeTid pname otsn object w).mpr hmem] at hattach
    exact Bool.noConfusion hattach
  have hassert : (ae && !probeTid.LookupTraceSourceByName ptsn) = false := by
    rcases hsrc with h | h
    · simp [h]
    · simp [h]
  simp only [InstallProbe, hlookup, NS_ASSERT, hassert, Probe.ConnectByObject,
    TraceConnectWithoutContext, ObjectFactory.Create, hno, if_false]
  exact ⟨_, rfl, rfl⟩


/-! ## The generic connector -/

/-- Counterexample to C3: the registries `{0 ↦ collectorWithoutOutput}` and
`{0 ↦ collectorWithOutput}` have the same key set, and the map→map call returns false,
because the source collector has no trace source `Output`. -/
theorem mapToMap_identical_keys_returns_false :
    registryMute.keySet = registryOut.keySet ∧
      ConnectCollectorToCollector_MapToMap true registryMute "Output" registryOut "Sink"
          "TraceSinkDouble" sampleWorld =
        Outcome.ret (false,
          { connections := [],
            attempts := [{ emitter := 2, traceSource := "Output",
                           callback := { sink := "TraceSinkDouble", receiver := some 1 } }],
            nextAddr := 100 }) :=
  ⟨by decide, by decide⟩

/-- C3, amended: with assertions enabled, the map→map `ConnectCollectorToCollector`
returns true if and only if the two registries have identical key sets and the
single→single bind succeeds for every same-keyed pair. -/
theorem mapToMap_true_iff (sourceCollectorMap : CollectorMap_t) (traceSourceName : String)
    (targetCollectorMap : CollectorMap_t) (C traceSink : String) (w : World) :
    (∃ w1, ConnectCollectorToCollector_MapToMap true sourceCollectorMap traceSourceName
        targetCollectorMap C traceSink w = Outcome.ret (true, w1)) ↔
      (sourceCollectorMap.keySet = targetCollectorMap.keySet ∧
        ∀ p ∈ sameKeyedPairs sourceCollectorMap.entries targetCollectorMap,
          BindSucceeds traceSourceName C traceSink p) := by
  constructor
  · rintro ⟨w1, h⟩
    obtain ⟨hset, hall⟩ := mapToMap_true_keys sourceCollectorMap traceSourceName
      targetCollectorMap C traceSink w w1 h
    exact ⟨hset, fun p hp => (bindSucceeds_iff traceSourceName C traceSink p).mpr (hall p hp)⟩
  · rintro ⟨hset, hall⟩
    obtain ⟨hsize, hkeys⟩ := (keySet_eq_iff _ _).mp hset
    have hall1 : ∀ p ∈ sameKeyedPairs sourceCollectorMap.entries targetCollectorMap,
        traceSourceName ∈ p.1.traceSources :=
      fun p hp => (bindSucceeds_iff traceSourceName C traceSink p).mp (hall p hp)
    rw [mapToMap_of_keys true sourceCollectorMap traceSourceName targetCollectorMap C
      traceSink w hsize hkeys, connectPairs_all traceSourceName C traceSink _ w hall1]
    exact ⟨_, rfl⟩

/-- Counterexample to C4: the registries `{1, 2}` and `{1, 3}` have different key sets
(equal sizes, other keys), and the map→map call returns false instead of aborting: the
bind for key 1 fails before key 2 is looked up in the target. -/
theorem mapToMap_keys_differ_returns_false :
    registrySource.keySet ≠ registryOtherKeys.keySet ∧
      ConnectCollectorToCollector_MapToMap true registrySource "Output" registryOtherKeys
          "Sink" "TraceSinkDouble" sampleWorld =
        Outcome.ret (false,
          { connections := [],
            attempts := [{ emitter := 2, traceSource := "Output",
                           callback := { sink := "TraceSinkDouble", receiver := some 1 } }],
            nextAddr := 100 }) :=
  ⟨by decide, by decide⟩

/-- C4, amended: for registries whose key sets differ, with assertions enabled, the
map→map `ConnectCollectorToCollector` never returns true. It ends in the fatal assertion
when the sizes differ. When the sizes are equal there is a first source key missing from
the target, and the call ends in the fatal assertion if every bind before that key
succeeds, and returns false if one of them fails. -/
theorem mapToMap_keys_differ (sourceCollectorMap : CollectorMap_t)
    (traceSourceName : String) (targetCollectorMap : CollectorMap_t)
    (C traceSink : String) (w : World)
    (hdiff : sourceCollectorMap.keySet ≠ targetCollectorMap.keySet) :
    (∀ w1, ConnectCollectorToCollector_MapToMap true sourceCollectorMap traceSourceName
        targetCollectorMap C traceSink w ≠ Outcome.ret (true, w1)) ∧
    (sourceCollectorMap.size ≠ targetCollectorMap.size →
      ConnectCollectorToCollector_MapToMap true sourceCollectorMap traceSourceName
        targetCollectorMap C traceSink w = Outcome.fatal) ∧
    (sourceCollectorMap.size = targetCollectorMap.size →
      ∃ pre e post, sourceCollectorMap.entries = pre ++ e :: post ∧
        (∀ x ∈ pre, (targetCollectorMap.find x.1).isSome = true) ∧
        targetCollectorMap.find e.1 = none ∧
        ((∀ p ∈ sameKeyedPairs pre targetCollectorMap,
            BindSucceeds traceSourceName C traceSink p) →
          ConnectCollectorToCollector_MapToMap true sourceCollectorMap traceSourceName
            targetCollectorMap C traceSink w = Outcome.fatal) ∧
        ((¬ ∀ p ∈ sameKeyedPairs pre targetCollectorMap,
            BindSucceeds traceSourceName C traceSink p) →
          ∃ w1, ConnectCollectorToCollector_MapToMap true sourceCollectorMap
            traceSourceName targetCollectorMap C traceSink w = Outcome.ret (false, w1))) := by
  refine ⟨?_, ?_, ?_⟩
  · intro w1 h
    exact hdiff (mapToMap_true_keys sourceCollectorMap traceSourceName targetCollectorMap
      C traceSink w w1 h).1
  · intro hsize
    rw [mapToMap_assert_size]
    simp [hsize]
  · intro hsize
    have hkeys : ¬ ∀ e ∈ sourceCollectorMap.entries,
        (targetCollectorMap.find e.1).isSome = true :=
      fun hk => hdiff ((keySet_eq_iff _ _).mpr ⟨hsize, hk⟩)
    obtain ⟨pre, e, post, hsplit, hpre, he⟩ :=
      exists_first_not (fun e => (targetCollectorMap.find e.1).isSome = true)
        sourceCollectorMap.entries hkeys
    have he1 : targetCollectorMap.find e.1 = none := by
      cases hf : targetCollectorMap.find e.1 with
      | none => rfl
      | some t => simp [hf] at he
    have hcall : ConnectCollectorToCollector_MapToMap true sourceCollectorMap
        traceSourceName targetCollectorMap C traceSink w =
        if (connectPairs traceSourceName C traceSink
              (sameKeyedPairs pre targetCollectorMap) w).1 = true then Outcome.fatal
        else Outcome.ret (connectPairs traceSourceName C traceSink
              (sameKeyedPairs pre targetCollectorMap) w) := by
      rw [mapToMap_assert_size, if_pos hsize, hsplit,
        mapToMapLoop_missing true traceSourceName targetCollectorMap C traceSink pre e
          post w hpre he1]
      simp
    refine ⟨pre, e, post, hsplit, hpre, he1, ?_, ?_⟩
    · intro hall
      have h1 : (connectPairs traceSourceName C traceSink
          (sameKeyedPairs pre targetCollectorMap) w).1 = true :=
        (connectPairs_true_iff traceSourceName C traceSink _ w).mpr
          (fun p hp => (bindSucceeds_iff traceSourceName C traceSink p).mp (hall p hp))
      rw [hcall, if_pos h1]
    · intro hnot
      have h1 : ¬ (connectPairs traceSourceName C traceSink
          (sameKeyedPairs pre targetCollectorMap) w).1 = true := by
        intro hc
        apply hnot
        intro p hp
        exact (bindSucceeds_iff traceSourceName C traceSink p).mpr
          ((connectPairs_true_iff traceSourceName C traceSink _ w).mp hc p hp)
      rw [hcall, if_neg h1]
      refine ⟨(connectPairs traceSourceName C traceSink
          (sameKeyedPairs pre targetCollectorMap) w).2, ?_⟩
      have hb : (connectPairs traceSourceName C traceSink
          (sameKeyedPairs pre targetCollectorMap) w).1 = false := by
        simpa using h1
      rw [← hb]

/-- Witness of C4, amended: a two-entry source registry against a three-entry target
registry. -/
theorem mapToMap_keys_differ_witness :
    registrySource.keySet ≠ registryThree.keySet ∧
      ConnectCollectorToCollector_MapToMap true registrySource "Output" registryThree
        "Sink" "TraceSinkDouble" sampleWorld = Outcome.fatal :=
  ⟨by decide,
    (mapToMap_keys_differ registrySource "Output" registryThree "Sink" "TraceSinkDouble"
      sampleWorld (by decide)).2.1 (by decide)⟩


/-! ## Probe attachment -/

/-- C5: a call of `InstallProbe` that creates the probe and whose attachment to the named
output of the source entity fails returns the null pointer without aborting, leaves the
registry with the same entries (same keys, same collectors, same count), and leaves the
established connections as they were. -/
theorem installProbe_attach_failure (assertEnabled : Bool) (tids : List TypeId)
    (object : Object)
    (objectTraceSourceName probeName probeTypeId probeTraceSourceName : String)
    (identifier : Nat) (collectorMap : CollectorMap_t) (C collectorTraceSink : String)
    (w : World) (probeTid : TypeId)
    (hlookup : TypeId.LookupByName tids probeTypeId = some probeTid)
    (hsrc : probeTid.LookupTraceSourceByName probeTraceSourceName = true ∨
      assertEnabled = false)
    (hattach : attaches probeTid probeName objectTraceSourceName object w = false) :
    ∃ m1 w1, InstallProbe assertEnabled tids object objectTraceSourceName probeName
        probeTypeId probeTraceSourceName identifier collectorMap C collectorTraceSink w =
          Outcome.ret (none, m1, w1) ∧
      m1.entries = collectorMap.entries ∧ m1.keySet = collectorMap.keySet ∧
      m1.size = collectorMap.size ∧ w1.connections = w.connections := by
  obtain ⟨w1, h, hconn⟩ := installProbe_attach_false assertEnabled tids object
    objectTraceSourceName probeName probeTypeId probeTraceSourceName identifier
    collectorMap C collectorTraceSink w probeTid hlookup hsrc hattach
  exact ⟨collectorMap, w1, h, rfl, rfl, rfl, hconn⟩

/-- Witness of C5: the entity has the trace source `Rx` only, and the probe is asked to
attach to `Tx`. -/
theorem installProbe_attach_failure_witness :
    attaches ⟨"ns3::ApplicationPacketProbe", ["Output"], ["Probe"]⟩ "probe" "Tx"
        sampleEntity sampleWorld = false ∧
      ∃ m1 w1, InstallProbe true sampleTypeIds sampleEntity "Tx" "probe"
          "ns3::ApplicationPacketProbe" "Output" 0 registryOut "Sink" "TraceSinkUinteger32"
          sampleWorld = Outcome.ret (none, m1, w1) ∧
        m1.entries = registryOut.entries ∧ m1.keySet = registryOut.keySet ∧
        m1.size = registryOut.size ∧ w1.connections = sampleWorld.connections :=
  ⟨by decide,
    installProbe_attach_failure true sampleTypeIds sampleEntity "Tx" "probe"
      "ns3::ApplicationPacketProbe" "Output" 0 registryOut "Sink" "TraceSinkUinteger32"
      sampleWorld ⟨"ns3::ApplicationPacketProbe", ["Output"], ["Probe"]⟩ (by decide)
      (Or.inl (by decide)) (by decide)⟩

/-- Counterexample to C7: in a build without assertions, a probe type that has no trace
source `OutputBytes` is attached to the entity, the bind of `OutputBytes` to the
collector fails, and `InstallProbe` returns the null pointer while the connection from
the trace source `Rx` of the entity to the discarded probe stays established. -/
theorem installProbe_null_leaves_connection :
    InstallProbe false sampleTypeIds sampleEntity "Rx" "probe"
          "ns3::ApplicationPacketProbe" "OutputBytes" 0 registryOut "Sink"
          "TraceSinkUinteger32" sampleWorld =
        Outcome.ret (none, registryOut,
          { connections := [{ emitter := 10, traceSource := "Rx",
                              callback := { sink := "TraceSink", receiver := some 100 } }],
            attempts := [{ emitter := 10, traceSource := "Rx",
                           callback := { sink := "TraceSink", receiver := some 100 } },
                         { emitter := 100, traceSource := "OutputBytes",
                           callback := { sink := "TraceSinkUinteger32",
                                         receiver := some 1 } }],
            nextAddr := 101 }) ∧
      [({ emitter := 10, traceSource := "Rx",
          callback := { sink := "TraceSink", receiver := some 100 } } : Connection)] ≠
        sampleWorld.connections :=
  ⟨rfl, by decide⟩

/-- C7, amended: a call of `InstallProbe` that returns the null pointer leaves the
established connections as they were whenever assertions are enabled, and in any build
whenever the attachment to the source entity failed. -/
theorem installProbe_null_connections (assertEnabled : Bool) (tids : List TypeId)
    (object : Object)
    (objectTraceSourceName probeName probeTypeId probeTraceSourceName : String)
    (identifier : Nat) (collectorMap : CollectorMap_t) (C collectorTraceSink : String)
    (w : World) (m1 : CollectorMap_t) (w1 : World)
    (hnull : InstallProbe assertEnabled tids object objectTraceSourceName probeName
      probeTypeId probeTraceSourceName identifier collectorMap C collectorTraceSink w =
        Outcome.ret (none, m1, w1))
    (hcase : assertEnabled = true ∨
      ∀ probeTid, TypeId.LookupByName tids probeTypeId = some probeTid →
        attaches probeTid probeName objectTraceSourceName object w = false) :
    w1.connections = w.connections := by
  cases hl : TypeId.LookupByName tids probeTypeId with
  | none =>
    cases assertEnabled <;> simp [InstallProbe, hl] at hnull
  | some probeTid =>
    cases hatt : attaches probeTid probeName objectTraceSourceName object w with
    | false =>
      have hsrc : probeTid.LookupTraceSourceByName probeTraceSourceName = true ∨
          assertEnabled = false := by
        cases hs : probeTid.LookupTraceSourceByName probeTraceSourceName with
        | true => exact Or.inl rfl
        | false =>
          cases assertEnabled with
          | false => exact Or.inr rfl
          | true => simp [InstallProbe, hl, NS_ASSERT, hs] at hnull
      obtain ⟨w2, h2, hconn⟩ := installProbe_attach_false assertEnabled tids object
        objectTraceSourceName probeName probeTypeId probeTraceSourceName identifier
        collectorMap C collectorTraceSink w probeTid hl hsrc hatt
      rw [h2] at hnull
      injection hnull with hnull
      injection hnull with _ hnull
      injection hnull with _ hnull
      rw [← hnull]
      exact hconn
    | true =>
      rcases hcase with hae | hfail
      · exfalso
        subst hae
        have hmem := (attaches_iff probeTid probeName objectTraceSourceName object w).mp hatt
        cases hs : probeTid.LookupTraceSourceByName probeTraceSourceName with
        | false => simp [InstallProbe, hl, NS_ASSERT, hs] at hnull
        | true =>
          have hs1 : probeTraceSourceName ∈ probeTid.traceSources := by
            simpa [TypeId.LookupTraceSourceByName] using hs
          cases hf : collectorMap.find identifier with
          | none =>
            simp [InstallProbe, hl, NS_ASSERT, hs, Probe.ConnectByObject,
              TraceConnectWithoutContext, ObjectFactory.Create, hmem, hf] at hnull
          | some c =>
            cases hg : GetObject c C with
            | none =>
              simp [InstallProbe, hl, NS_ASSERT, hs, Probe.ConnectByObject,
                TraceConnectWithoutContext, ObjectFactory.Create, hmem, hf, hg] at hnull
            | some a =>
              simp [InstallProbe, hl, NS_ASSERT, hs, Probe.ConnectByObject,
                TraceConnectWithoutContext, ObjectFactory.Create, hmem, hf, hg, hs1]
                at hnull
      · rw [hfail probeTid hl] at hatt
        exact Bool.noConfusion hatt

/-- Witness of C7, amended: with assertions enabled, the attachment to the missing trace
source `Tx` fails and the call returns the null pointer. -/
theorem installProbe_null_connections_witness :
    ∃ w1, InstallProbe true sampleTypeIds sampleEntity "Tx" "probe"
        "ns3::ApplicationPacketProbe" "Output" 0 registryOut "Sink" "TraceSinkUinteger32"
        sampleWorld = Outcome.ret (none, registryOut, w1) ∧
      w1.connections = sampleWorld.connections :=
  ⟨{ connections := [],
     attempts := [{ emitter := 10, traceSource := "Tx",
                    callback := { sink := "TraceSink", receiver := some 100 } }],
     nextAddr := 101 }, rfl,
    installProbe_null_connections true sampleTypeIds sampleEntity "Tx" "probe"
      "ns3::ApplicationPacketProbe" "Output" 0 registryOut "Sink" "TraceSinkUinteger32"
      sampleWorld registryOut _ rfl (Or.inl rfl)⟩

/-- C8, evaluated at the failing input: the target collector is not a `Sink`, so
`GetObject<Sink> ()` yields the null pointer; the single→single call does not abort, it
connects a callback bound to the null pointer and returns true. -/
theorem connect_single_null_receiver :
    GetObject collectorNotSink "Sink" = none ∧
      ConnectCollectorToCollector_SingleToSingle collectorWithOutput "Output"
          collectorNotSink "Sink" "TraceSinkDouble" sampleWorld =
        Outcome.ret (true,
          { connections := [{ emitter := 1, traceSource := "Output",
                              callback := { sink := "TraceSinkDouble", receiver := none } }],
            attempts := [{ emitter := 1, traceSource := "Output",
                           callback := { sink := "TraceSinkDouble", receiver := none } }],
            nextAddr := 100 }) :=
  ⟨by decide, by decide⟩


/-! ## Configuration after installation -/

theorem install_isInstalled (CreateAggregator DoInstall : SatStatsHelper → SatStatsHelper)
    (s : SatStatsHelper) :
    (SatStatsHelper.Install CreateAggregator DoInstall s).m_isInstalled = true := by
  unfold SatStatsHelper.Install
  cases h : s.m_isInstalled with
  | true => simpa using h
  | false => simp

/-- C9: in a helper state reached by a completed `Install ()`, `SetIdentifierType` and
`SetOutputType` are no-ops for every argument: the state after the call is the state
before it, so `GetIdentifierType ()` and `GetOutputType ()` return what they returned
before, and the registry and the aggregator are unchanged. -/
theorem setters_noop_after_install
    (CreateAggregator DoInstall : SatStatsHelper → SatStatsHelper)
    (s0 s : SatStatsHelper) (identifierType : IdentifierType_t)
    (outputType : OutputType_t)
    (hinstalled : s = SatStatsHelper.Install CreateAggregator DoInstall s0) :
    (s.SetIdentifierType identifierType = s ∧
      (s.SetIdentifierType identifierType).GetIdentifierType = s.GetIdentifierType ∧
      (s.SetIdentifierType identifierType).GetOutputType = s.GetOutputType ∧
      (s.SetIdentifierType identifierType).m_collectors = s.m_collectors ∧
      (s.SetIdentifierType identifierType).GetAggregator = s.GetAggregator) ∧
    (s.SetOutputType outputType = s ∧
      (s.SetOutputType outputType).GetIdentifierType = s.GetIdentifierType ∧
      (s.SetOutputType outputType).GetOutputType = s.GetOutputType ∧
      (s.SetOutputType outputType).m_collectors = s.m_collectors ∧
      (s.SetOutputType outputType).GetAggregator = s.GetAggregator) := by
  have hflag : s.m_isInstalled = true := by
    rw [hinstalled]
    exact install_isInstalled CreateAggregator DoInstall s0
  have h1 : s.SetIdentifierType identifierType = s := by
    simp [SatStatsHelper.SetIdentifierType, hflag]
  have h2 : s.SetOutputType outputType = s := by
    simp [SatStatsHelper.SetOutputType, hflag]
  rw [h1, h2]
  exact ⟨⟨rfl, rfl, rfl, rfl, rfl⟩, ⟨rfl, rfl, rfl, rfl, rfl⟩⟩

/-- Witness of C9: the sample helper after `Install ()` with delegates that change
nothing; the setters are given values other than the configured ones. -/
theorem setters_noop_after_install_witness :
    ((SatStatsHelper.Install id id sampleHelper).SetIdentifierType
        IdentifierType_t.IDENTIFIER_BEAM).GetIdentifierType =
        IdentifierType_t.IDENTIFIER_GLOBAL ∧
      ((SatStatsHelper.Install id id sampleHelper).SetOutputType
        OutputType_t.OUTPUT_CDF_PLOT).GetOutputType = OutputType_t.OUTPUT_SCALAR_FILE :=
  ⟨(setters_noop_after_install id id sampleHelper
      (SatStatsHelper.Install id id sampleHelper) IdentifierType_t.IDENTIFIER_BEAM
      OutputType_t.OUTPUT_CDF_PLOT rfl).1.2.1,
   (setters_noop_after_install id id sampleHelper
      (SatStatsHelper.Install id id sampleHelper) IdentifierType_t.IDENTIFIER_BEAM
      OutputType_t.OUTPUT_CDF_PLOT rfl).2.2.2.1⟩

/-! ## Partial wiring of a failed map→map call -/

theorem pairwise_split_keys (pre : List (Nat × DataCollectionObject))
    (e : Nat × DataCollectionObject) (post : List (Nat × DataCollectionObject))
    (h : (pre ++ e :: post).Pairwise (fun a b => a.1 < b.1)) :
    (∀ x ∈ pre, x.1 < e.1) ∧ ∀ x ∈ post, e.1 < x.1 := by
  rw [List.pairwise_append] at h
  obtain ⟨_, hright, hcross⟩ := h
  refine ⟨fun x hx => hcross x hx e (List.mem_cons_self _ _), ?_⟩
  exact fun x hx => (List.pairwise_cons.mp hright).1 x hx

/-- C10: when the map→map `ConnectCollectorToCollector` returns false, the source entries
split around a key `key` whose pairwise bind fails: every smaller source key has a
target, its bind succeeds and is established after the call (nothing is rolled back);
every other source key is greater; the connections added by the call are exactly the
binds of the smaller keys, and the binds attempted are exactly those of the keys up to
`key`, so nothing is attempted or established for a greater key. -/
theorem mapToMap_false_partial_wiring (assertEnabled : Bool)
    (sourceCollectorMap : CollectorMap_t) (traceSourceName : String)
    (targetCollectorMap : CollectorMap_t) (C traceSink : String) (w w1 : World)
    (hfalse : ConnectCollectorToCollector_MapToMap assertEnabled sourceCollectorMap
      traceSourceName targetCollectorMap C traceSink w = Outcome.ret (false, w1)) :
    ∃ pre key c t post,
      sourceCollectorMap.entries = pre ++ (key, c) :: post ∧
      targetCollectorMap.find key = some t ∧
      BindFails traceSourceName C traceSink (c, t) ∧
      (∀ e ∈ pre, e.1 < key ∧ ∃ t1, targetCollectorMap.find e.1 = some t1 ∧
        BindSucceeds traceSourceName C traceSink (e.2, t1) ∧
        bindOf traceSourceName C traceSink (e.2, t1) ∈ w1.connections) ∧
      (∀ e ∈ post, key < e.1) ∧
      w1.connections = w.connections ++
        (sameKeyedPairs pre targetCollectorMap).map (bindOf traceSourceName C traceSink) ∧
      w1.attempts = w.attempts ++
        (sameKeyedPairs (pre ++ [(key, c)]) targetCollectorMap).map
          (bindOf traceSourceName C traceSink) := by
  have hloop : mapToMapLoop assertEnabled traceSourceName targetCollectorMap C traceSink
      sourceCollectorMap.entries w = Outcome.ret (false, w1) := by
    unfold ConnectCollectorToCollector_MapToMap NS_ASSERT at hfalse
    split at hfalse
    · exact Outcome.noConfusion hfalse
    · exact hfalse
  obtain ⟨pre, e, t, post, hsplit, hpre, ht, hn, hconn, hatt⟩ :=
    mapToMapLoop_false assertEnabled traceSourceName targetCollectorMap C traceSink
      sourceCollectorMap.entries w w1 hloop
  have hasc := sourceCollectorMap.ascending
  rw [hsplit] at hasc
  obtain ⟨hlt, hgt⟩ := pairwise_split_keys pre e post hasc
  refine ⟨pre, e.1, e.2, t, post, hsplit, ht,
    (bindFails_iff traceSourceName C traceSink (e.2, t)).mpr hn, ?_, hgt, hconn, hatt⟩
  intro x hx
  obtain ⟨t1, ht1, hx1⟩ := hpre x hx
  refine ⟨hlt x hx, t1, ht1,
    (bindSucceeds_iff traceSourceName C traceSink (x.2, t1)).mpr hx1, ?_⟩
  rw [hconn]
  apply List.mem_append_right
  apply List.mem_map_of_mem
  exact (sameKeyedPairs_mem pre targetCollectorMap (x.2, t1)).mpr ⟨x, hx, ht1, rfl⟩

/-- Witness of C10: source keys 1, 2, 3 where the bind of key 2 fails; the bind of key 1
stays established and key 3 is not attempted. -/
theorem mapToMap_false_partial_wiring_witness :
    ConnectCollectorToCollector_MapToMap true registryThree "Output" registryThreeTargets
        "Sink" "TraceSinkDouble" sampleWorld = Outcome.ret (false, partlyWiredWorld) ∧
    ∃ pre key c t post,
      registryThree.entries = pre ++ (key, c) :: post ∧
      registryThreeTargets.find key = some t ∧
      BindFails "Output" "Sink" "TraceSinkDouble" (c, t) ∧
      (∀ e ∈ pre, e.1 < key ∧ ∃ t1, registryThreeTargets.find e.1 = some t1 ∧
        BindSucceeds "Output" "Sink" "TraceSinkDouble" (e.2, t1) ∧
        bindOf "Output" "Sink" "TraceSinkDouble" (e.2, t1) ∈
          partlyWiredWorld.connections) ∧
      (∀ e ∈ post, key < e.1) ∧
      partlyWiredWorld.connections = sampleWorld.connections ++
        (sameKeyedPairs pre registryThreeTargets).map
          (bindOf "Output" "Sink" "TraceSinkDouble") ∧
      partlyWiredWorld.attempts = sampleWorld.attempts ++
        (sameKeyedPairs (pre ++ [(key, c)]) registryThreeTargets).map
          (bindOf "Output" "Sink" "TraceSinkDouble") :=
  ⟨by decide,
    mapToMap_false_partial_wiring true registryThree "Output" registryThreeTargets "Sink"
      "TraceSinkDouble" sampleWorld partlyWiredWorld (by decide)⟩

end SatStats
